import Mathlib

/-!
Shallow embedding of the two helper modules of the domino-data-lab-plugin
repository: `templates/experiment/experiment_setup.py` and
`templates/tracing/tracing_setup.py`.

The process environment is modelled as a partial map from variable names to
values.  Calls into external SDKs (mlflow, the OpenAI client) are effects the
Python code only forwards data to; the embedding exposes the data each call
would receive (the experiment name, the tag mapping, the score mapping) as the
return value, and abstracts the one external call whose result the code
inspects (the judge-model chat completion) as an explicit outcome parameter.
-/

/-- Process environment: a partial map from variable names to values. -/
abbrev Env : Type := String → Option String

/-- Model of Python `os.environ.get(key, default)`. -/
def Env.getD (env : Env) (key default : String) : String :=
  (env key).getD default

/-- Model of one environment-variable write, `os.environ[key] = value`. -/
def Env.set (env : Env) (key value : String) : Env :=
  fun k => if k = key then some value else env k

/-- `setup_experiment` from `experiment_setup.py`: reads
`DOMINO_STARTING_USERNAME` and `DOMINO_PROJECT_NAME` (default `"unknown"`),
builds the experiment name by the f-string
`f"\x7bbase_name\x7d-\x7bproject\x7d-\x7busername\x7d"` and returns it.  The
`mlflow.set_experiment` and `print` calls only forward this same string. -/
def setup_experiment (base_name : String) (env : Env) : String :=
  let username := env.getD "DOMINO_STARTING_USERNAME" "unknown"
  let project := env.getD "DOMINO_PROJECT_NAME" "unknown"
  let experiment_name := base_name ++ "-" ++ project ++ "-" ++ username
  experiment_name

/-- `log_domino_context` from `experiment_setup.py`: the tag mapping the code
passes to `mlflow.set_tags`, in the literal's insertion order. -/
def log_domino_context (env : Env) : List (String × String) :=
  [ ("domino.user", env.getD "DOMINO_STARTING_USERNAME" "unknown"),
    ("domino.project", env.getD "DOMINO_PROJECT_NAME" "unknown"),
    ("domino.run_id", env.getD "DOMINO_RUN_ID" "unknown"),
    ("domino.hardware_tier", env.getD "DOMINO_HARDWARE_TIER_NAME" "unknown") ]

/-- `enable_large_artifact_upload` from `experiment_setup.py`: performs the two
environment-variable writes, in program order, and returns the new
environment. -/
def enable_large_artifact_upload (env : Env) : Env :=
  (env.set "MLFLOW_ENABLE_PROXY_MULTIPART_UPLOAD" "true").set
    "MLFLOW_MULTIPART_UPLOAD_CHUNK_SIZE" "104857600"

/-- `setup_tracing` from `tracing_setup.py`.  A recognized framework name
enables that framework\x27s autolog (an external effect) and prints a message,
modelled as `Except.ok` of the printed message; any other name raises
`ValueError`, modelled as `Except.error` of the exception message. -/
def setup_tracing (framework : String) : Except String String :=
  if framework = "openai" then Except.ok "Enabled OpenAI auto-tracing"
  else if framework = "anthropic" then Except.ok "Enabled Anthropic auto-tracing"
  else if framework = "langchain" then Except.ok "Enabled LangChain auto-tracing"
  else Except.error ("Unknown framework: " ++ framework ++
    ". Use \x27openai\x27, \x27anthropic\x27, or \x27langchain\x27")

/-- Values manipulated by the evaluator callbacks: the fragment of the Python
value universe that `tracing_setup.py` inspects — strings, numbers (Python
ints and floats, modelled together as rationals), `None`, and string-keyed
dicts (modelled as association lists in insertion order). -/
inductive PyVal : Type where
  | str (s : String)
  | num (q : ℚ)
  | none
  | dict (fields : List (String × PyVal))

mutual

/-- Model of Python `repr`: strings quoted with single quotes (escaping is not
modelled), integers printed plainly, non-integral rationals via `toString`,
`None` printed as `None`, dicts brace-delimited with quoted keys in insertion
order. -/
def pyRepr : PyVal → String
  | PyVal.str s => "\x27" ++ s ++ "\x27"
  | PyVal.num q => if q.den = 1 then toString q.num else toString q
  | PyVal.none => "None"
  | PyVal.dict fs => "\x7b" ++ pyReprFields fs ++ "\x7d"

/-- Comma-separated `repr`-rendered entries of a dict. -/
def pyReprFields : List (String × PyVal) → String
  | [] => ""
  | [(k, v)] => "\x27" ++ k ++ "\x27: " ++ pyRepr v
  | (k, v) :: rest => "\x27" ++ k ++ "\x27: " ++ pyRepr v ++ ", " ++ pyReprFields rest

end

/-- Model of Python `str`: a string is returned unchanged, everything else
falls back to its `repr` rendering. -/
def pyStr : PyVal → String
  | PyVal.str s => s
  | v => pyRepr v

/-- The `response_length` branch of the evaluator built by `create_evaluator`:
`len(output)` for a string; for a dict,
`len(str(output.get("response", output.get("content", str(output)))))`;
otherwise `len(str(output))`. -/
def response_length_score : PyVal → Nat
  | PyVal.str s => s.length
  | PyVal.dict fs =>
      (pyStr (((fs.lookup "response").or (fs.lookup "content")).getD
        (PyVal.str (pyStr (PyVal.dict fs))))).length
  | v => (pyStr v).length

/-- Default metrics list of `create_evaluator`, installed when the caller
passes `metrics=None`. -/
def defaultMetrics : List String := ["quality_score", "response_length"]

/-- The evaluator closure built by `create_evaluator` in `tracing_setup.py`,
applied to an inputs mapping and an output value: builds the `scores` dict in
program order — `response_length` when requested, the placeholder
`quality_score` of `0.8` when requested, and `confidence` when requested and
the output is a dict (`output.get("confidence", 0)`). -/
def evaluate (metrics : List String) (_inputs : List (String × PyVal))
    (output : PyVal) : List (String × PyVal) :=
  (if "response_length" ∈ metrics then
     [("response_length", PyVal.num (response_length_score output))]
   else [])
  ++ (if "quality_score" ∈ metrics then
     [("quality_score", PyVal.num (4/5))]
   else [])
  ++ (if "confidence" ∈ metrics then
     match output with
     | PyVal.dict fs => [("confidence", (fs.lookup "confidence").getD (PyVal.num 0))]
     | _ => []
   else [])

/-- `create_evaluator` from `tracing_setup.py`: resolves the `metrics=None`
default and returns the evaluator closure. -/
def create_evaluator (metrics : Option (List String)) :
    List (String × PyVal) → PyVal → List (String × PyVal) :=
  evaluate (metrics.getD defaultMetrics)

/-- Outcome of the judge-model call inside the evaluator built by
`create_llm_judge_evaluator`: `some q` when the chat-completion call succeeds
and `float(... .content.strip())` parses as the number `q`; `Option.none` when
any step of the `try` block raises. -/
abbrev JudgeOutcome : Type := Option ℚ

/-- The evaluator closure built by `create_llm_judge_evaluator`: on a
successful judge call the raw score is clamped by `max(0, min(10, score))` and
divided by `10`; on any exception the score is the default `0.5`.  The query
and response extracted from `inputs` and `output` only shape the judge prompt,
so they are absorbed into the abstract call outcome. -/
def create_llm_judge_evaluator (judge_model : String) (call : JudgeOutcome)
    (_inputs : List (String × PyVal)) (_output : PyVal) : List (String × PyVal) :=
  let score : ℚ :=
    match call with
    | some raw => max 0 (min 10 raw) / 10
    | Option.none => 1/2
  [("llm_judge_score", PyVal.num score), ("judge_model", PyVal.str judge_model)]

/-- `get_aggregation_metrics` from `tracing_setup.py`: resolves the
`metric_names=None` default, then for each name appends `(name, "mean")`,
then `(name, "max")` when the name is `response_length` or `latency`, then
`(name, "min")` when the name is `quality_score` or `confidence`. -/
def get_aggregation_metrics (metric_names : Option (List String)) :
    List (String × String) :=
  let names := metric_names.getD ["quality_score", "response_length", "confidence"]
  (names.map fun name =>
    [(name, "mean")]
    ++ (if name ∈ ["response_length", "latency"] then [(name, "max")] else [])
    ++ (if name ∈ ["quality_score", "confidence"] then [(name, "min")] else [])).flatten

/-- Claim C1: for every base name and environment, `setup_experiment` returns
exactly the concatenation `"\x7bbase\x7d-\x7bproject\x7d-\x7buser\x7d"`, where
the project and user are the values of `DOMINO_PROJECT_NAME` and
`DOMINO_STARTING_USERNAME`, each replaced by `"unknown"` when unset. -/
theorem setup_experiment_concat (base : String) (env : Env) :
    setup_experiment base env
      = base ++ "-" ++ env.getD "DOMINO_PROJECT_NAME" "unknown"
          ++ "-" ++ env.getD "DOMINO_STARTING_USERNAME" "unknown" := rfl

/-- Claim C2: the tag mapping sent by `log_domino_context` has exactly the
keys `domino.user`, `domino.project`, `domino.run_id`, `domino.hardware_tier`,
in that order, and each key maps to the corresponding environment variable
with default `"unknown"`. -/
theorem log_domino_context_tags (env : Env) :
    (log_domino_context env).map Prod.fst
        = ["domino.user", "domino.project", "domino.run_id", "domino.hardware_tier"]
    ∧ (log_domino_context env).lookup "domino.user"
        = some (env.getD "DOMINO_STARTING_USERNAME" "unknown")
    ∧ (log_domino_context env).lookup "domino.project"
        = some (env.getD "DOMINO_PROJECT_NAME" "unknown")
    ∧ (log_domino_context env).lookup "domino.run_id"
        = some (env.getD "DOMINO_RUN_ID" "unknown")
    ∧ (log_domino_context env).lookup "domino.hardware_tier"
        = some (env.getD "DOMINO_HARDWARE_TIER_NAME" "unknown") := by
  refine ⟨rfl, ?_, ?_, ?_, ?_⟩ <;> rfl

/-- Claim C3: `setup_tracing` succeeds exactly on `openai`, `anthropic` and
`langchain`, and on any other framework raises a `ValueError` whose message
names the invalid value and lists the three accepted values. -/
theorem setup_tracing_spec (f : String) :
    ((f = "openai" ∨ f = "anthropic" ∨ f = "langchain") →
        ∃ m, setup_tracing f = Except.ok m)
    ∧ (f ≠ "openai" → f ≠ "anthropic" → f ≠ "langchain" →
        setup_tracing f = Except.error
          ("Unknown framework: " ++ f ++
            ". Use \x27openai\x27, \x27anthropic\x27, or \x27langchain\x27"))
    ∧ (∀ e, setup_tracing f = Except.error e →
        ¬(f = "openai" ∨ f = "anthropic" ∨ f = "langchain")) := by
  refine ⟨?_, ?_, ?_⟩
  · rintro (rfl | rfl | rfl) <;> exact ⟨_, rfl⟩
  · intro h1 h2 h3
    simp [setup_tracing, h1, h2, h3]
  · intro e he
    rintro (rfl | rfl | rfl) <;> simp [setup_tracing] at he

/-- Witness for C3: the unsupported framework name `mistral` produces exactly
the `ValueError` message naming it and listing the accepted values. -/
theorem setup_tracing_spec_witness :
    setup_tracing "mistral" = Except.error
      ("Unknown framework: mistral. Use \x27openai\x27, \x27anthropic\x27, or \x27langchain\x27") :=
  (setup_tracing_spec "mistral").2.1 (by decide) (by decide) (by decide)

/-- Claim C6: `get_aggregation_metrics` on `["quality_score",
"response_length"]` returns exactly the four pairs — mean for both names, min
for `quality_score`, max for `response_length`. -/
theorem get_aggregation_metrics_pairs :
    get_aggregation_metrics (some ["quality_score", "response_length"])
      = [("quality_score", "mean"), ("quality_score", "min"),
         ("response_length", "mean"), ("response_length", "max")] := rfl

/-- Claim C8: `enable_large_artifact_upload` sets
`MLFLOW_ENABLE_PROXY_MULTIPART_UPLOAD` to `"true"` and
`MLFLOW_MULTIPART_UPLOAD_CHUNK_SIZE` to `"104857600"`, and leaves every other
environment variable unchanged. -/
theorem enable_large_artifact_upload_spec (env : Env) :
    enable_large_artifact_upload env "MLFLOW_ENABLE_PROXY_MULTIPART_UPLOAD" = some "true"
    ∧ enable_large_artifact_upload env "MLFLOW_MULTIPART_UPLOAD_CHUNK_SIZE" = some "104857600"
    ∧ ∀ k, k ≠ "MLFLOW_ENABLE_PROXY_MULTIPART_UPLOAD" →
        k ≠ "MLFLOW_MULTIPART_UPLOAD_CHUNK_SIZE" →
        enable_large_artifact_upload env k = env k := by
  refine ⟨?_, ?_, ?_⟩
  · simp [enable_large_artifact_upload, Env.set]
  · simp [enable_large_artifact_upload, Env.set]
  · intro k h1 h2
    simp [enable_large_artifact_upload, Env.set, h1, h2]

/-- Witness for C8: in the empty environment, the variable `PATH` is left
unchanged by `enable_large_artifact_upload`. -/
theorem enable_large_artifact_upload_witness :
    enable_large_artifact_upload (fun _ => Option.none) "PATH"
      = (fun _ => (Option.none : Option String)) "PATH" :=
  (enable_large_artifact_upload_spec (fun _ => Option.none)).2.2 "PATH"
    (by decide) (by decide)

/-- Claim C4: with the default metrics, the evaluator on a string output
returns a `response_length` equal to the string's character count and a
`quality_score` of `0.8` (= 4/5). -/
theorem create_evaluator_default_string (s : String) (inputs : List (String × PyVal)) :
    (create_evaluator Option.none inputs (PyVal.str s)).lookup "response_length"
        = some (PyVal.num (s.length : ℚ))
    ∧ (create_evaluator Option.none inputs (PyVal.str s)).lookup "quality_score"
        = some (PyVal.num (4/5)) :=
  ⟨rfl, rfl⟩

/-- Claim C5: with the default metrics, the evaluator on a dict output that
has a `response` entry measures `response_length` from the string form of
that entry, not from the dict as a whole. -/
theorem create_evaluator_dict_response (fs : List (String × PyVal)) (v : PyVal)
    (inputs : List (String × PyVal)) (h : fs.lookup "response" = some v) :
    (create_evaluator Option.none inputs (PyVal.dict fs)).lookup "response_length"
      = some (PyVal.num ((pyStr v).length : ℚ)) := by
  simp [create_evaluator, evaluate, defaultMetrics, response_length_score, h, List.lookup]

/-- Witness for C5: the dict `\x7b"response": "hi"\x7d` gets response length 2,
the length of `"hi"`. -/
theorem create_evaluator_dict_response_witness :
    (create_evaluator Option.none [] (PyVal.dict [("response", PyVal.str "hi")])).lookup
        "response_length"
      = some (PyVal.num ((pyStr (PyVal.str "hi")).length : ℚ)) :=
  create_evaluator_dict_response [("response", PyVal.str "hi")] (PyVal.str "hi") [] rfl

/-- Claim C7: when the judge call fails (raises), the LLM-judge evaluator
returns the fixed neutral score `0.5` under `llm_judge_score` instead of
propagating the exception. -/
theorem llm_judge_failure_neutral (m : String) (inputs : List (String × PyVal))
    (output : PyVal) :
    (create_llm_judge_evaluator m Option.none inputs output).lookup "llm_judge_score"
      = some (PyVal.num (1/2)) := rfl

/-- Claim C9: whatever the judge call's outcome, the `llm_judge_score` the
evaluator returns lies in the closed interval `[0, 1]`. -/
theorem llm_judge_score_unit_interval (m : String) (call : JudgeOutcome)
    (inputs : List (String × PyVal)) (output : PyVal) :
    ∃ q : ℚ, (create_llm_judge_evaluator m call inputs output).lookup "llm_judge_score"
        = some (PyVal.num q) ∧ 0 ≤ q ∧ q ≤ 1 := by
  cases call with
  | none => exact ⟨1/2, rfl, by norm_num, by norm_num⟩
  | some raw =>
      refine ⟨max 0 (min 10 raw) / 10, rfl, ?_, ?_⟩
      · exact div_nonneg (le_max_left 0 _) (by norm_num)
      · rw [div_le_one (by norm_num : (0:ℚ) < 10)]
        exact max_le (by norm_num) (min_le_left _ _)

/-- Claim C10: the evaluator built on any metrics list returns only keys that
are both requested and among the three supported names; `confidence` appears
exactly when it is requested and the output is a dict, and defaults to `0`
when the dict lacks a `confidence` entry. -/
theorem create_evaluator_requested_keys (metrics : List String)
    (inputs : List (String × PyVal)) (output : PyVal) :
    (∀ k, k ∈ (create_evaluator (some metrics) inputs output).map Prod.fst →
        k ∈ metrics ∧ (k = "response_length" ∨ k = "quality_score" ∨ k = "confidence"))
    ∧ ("confidence" ∈ (create_evaluator (some metrics) inputs output).map Prod.fst ↔
        "confidence" ∈ metrics ∧ ∃ fs, output = PyVal.dict fs)
    ∧ (∀ fs, output = PyVal.dict fs → "confidence" ∈ metrics →
        fs.lookup "confidence" = Option.none →
        (create_evaluator (some metrics) inputs output).lookup "confidence"
          = some (PyVal.num 0)) := by
  refine ⟨?_, ?_, ?_⟩
  · intro k hk
    by_cases h1 : "response_length" ∈ metrics <;>
      by_cases h2 : "quality_score" ∈ metrics <;>
      by_cases h3 : "confidence" ∈ metrics <;>
      cases output <;>
      simp [create_evaluator, evaluate, h1, h2, h3] at hk <;> aesop
  · by_cases h3 : "confidence" ∈ metrics <;> cases output <;>
      simp [create_evaluator, evaluate, h3]
  · rintro fs rfl h3 hnone
    by_cases h1 : "response_length" ∈ metrics <;>
      by_cases h2 : "quality_score" ∈ metrics <;>
      simp [create_evaluator, evaluate, h1, h2, h3, hnone, List.lookup]

/-- Witness for C10: requesting only `confidence` on a dict without a
`confidence` entry yields the default score `0`. -/
theorem create_evaluator_requested_keys_witness :
    (create_evaluator (some ["confidence"]) [] (PyVal.dict [("x", PyVal.num 1)])).lookup
        "confidence"
      = some (PyVal.num 0) :=
  (create_evaluator_requested_keys ["confidence"] [] (PyVal.dict [("x", PyVal.num 1)])).2.2
    [("x", PyVal.num 1)] rfl (by simp) rfl
